import Mathlib

/-!
Verification of the ec-sensor repository: a Modbus-RTU frame codec
(`sensor.py`, class `TaidacentSoilSensor`) and an RS-485 transport session
(`rs485.py`, class `RS485Communication`).  Byte strings are modelled as
`List Nat` with elements below 256; the optional return values of the
Python methods (`None` vs bytes / numbers) become `Option`.  pH values,
produced in Python by float division by 10.0, are modelled in `ℚ`.
-/

set_option maxRecDepth 10000

namespace ECSensor

/-- One inner iteration of the CRC loop in `TaidacentSoilSensor.calculate_crc16`:
if the low bit is set, shift right and XOR with 0xA001, else just shift right. -/
def crcRound (crc : Nat) : Nat :=
  if crc % 2 = 1 then (crc / 2) ^^^ 0xA001 else crc / 2

/-- Processing of one input byte in `calculate_crc16`: XOR the byte into the
accumulator, then run eight `crcRound` steps. -/
def crcByte (crc b : Nat) : Nat :=
  (List.range 8).foldl (fun c _ => crcRound c) (crc ^^^ b)

/-- `TaidacentSoilSensor.calculate_crc16`: fold over the data starting from
0xFFFF, then emit `[crc & 0xFF, crc >> 8]` (low byte first). -/
def calculate_crc16 (data : List Nat) : List Nat :=
  let crc := data.foldl crcByte 0xFFFF
  [crc % 256, crc / 256]

/-- `TaidacentSoilSensor.create_command`: device id, function code, big-endian
register address (2 bytes), big-endian register count (2 bytes), then the CRC. -/
def create_command (device_id function_code register_address register_count : Nat) :
    List Nat :=
  let cmd := [device_id, function_code,
              register_address / 256 % 256, register_address % 256,
              register_count / 256 % 256, register_count % 256]
  cmd ++ calculate_crc16 cmd

/-- Constant `CMD_READ_N` from `sensor.py`. -/
def CMD_READ_N : List Nat := [0x01, 0x03, 0x00, 0x1E, 0x00, 0x01, 0xE4, 0x0C]

/-- Constant `CMD_READ_P` from `sensor.py`. -/
def CMD_READ_P : List Nat := [0x01, 0x03, 0x00, 0x1F, 0x00, 0x01, 0xB5, 0xCC]

/-- Constant `CMD_READ_K` from `sensor.py`. -/
def CMD_READ_K : List Nat := [0x01, 0x03, 0x00, 0x20, 0x00, 0x01, 0x85, 0xC0]

/-- Constant `CMD_READ_NPK` from `sensor.py`. -/
def CMD_READ_NPK : List Nat := [0x01, 0x03, 0x00, 0x1E, 0x00, 0x03, 0x65, 0xCD]

/-- Constant `CMD_READ_EC_PH` from `sensor.py`. -/
def CMD_READ_EC_PH : List Nat := [0x01, 0x03, 0x00, 0x00, 0x00, 0x04, 0x44, 0x09]

/-- Constant `CMD_READ_EC` from `sensor.py`. -/
def CMD_READ_EC : List Nat := [0x01, 0x03, 0x00, 0x02, 0x00, 0x01, 0x25, 0xCA]

/-- Constant `CMD_READ_PH` from `sensor.py`. -/
def CMD_READ_PH : List Nat := [0x01, 0x03, 0x00, 0x03, 0x00, 0x01, 0x74, 0x0A]

/-- Big-endian 16-bit decode, `struct.unpack` with format `>H` on two bytes. -/
def decodeU16 (hi lo : Nat) : Nat := 256 * hi + lo

/-- `TaidacentSoilSensor.read_nitrogen`, parametrised over the raw response the
transport produced (`None` or bytes).  Accepts when the length is at least 7,
byte 0 equals the device id and byte 1 equals 3; then decodes bytes 3..4
big-endian.  Otherwise returns `none`. -/
def read_nitrogen (device_id : Nat) (response : Option (List Nat)) : Option Nat :=
  match response with
  | none => none
  | some r =>
      if 7 ≤ r.length ∧ r.getD 0 0 = device_id ∧ r.getD 1 0 = 3 then
        some (decodeU16 (r.getD 3 0) (r.getD 4 0))
      else none

/-- `TaidacentSoilSensor.read_phosphorus`: same validation and decode shape as
`read_nitrogen` (only the command sent differs). -/
def read_phosphorus (device_id : Nat) (response : Option (List Nat)) : Option Nat :=
  match response with
  | none => none
  | some r =>
      if 7 ≤ r.length ∧ r.getD 0 0 = device_id ∧ r.getD 1 0 = 3 then
        some (decodeU16 (r.getD 3 0) (r.getD 4 0))
      else none

/-- `TaidacentSoilSensor.read_potassium`: same validation and decode shape as
`read_nitrogen`. -/
def read_potassium (device_id : Nat) (response : Option (List Nat)) : Option Nat :=
  match response with
  | none => none
  | some r =>
      if 7 ≤ r.length ∧ r.getD 0 0 = device_id ∧ r.getD 1 0 = 3 then
        some (decodeU16 (r.getD 3 0) (r.getD 4 0))
      else none

/-- `TaidacentSoilSensor.read_ec`: same validation and decode shape as
`read_nitrogen`. -/
def read_ec (device_id : Nat) (response : Option (List Nat)) : Option Nat :=
  match response with
  | none => none
  | some r =>
      if 7 ≤ r.length ∧ r.getD 0 0 = device_id ∧ r.getD 1 0 = 3 then
        some (decodeU16 (r.getD 3 0) (r.getD 4 0))
      else none

/-- `TaidacentSoilSensor.read_ph`: validates like `read_nitrogen`, then divides
the raw big-endian value by 10 (Python `ph_raw / 10.0`, modelled in `ℚ`). -/
def read_ph (device_id : Nat) (response : Option (List Nat)) : Option ℚ :=
  match response with
  | none => none
  | some r =>
      if 7 ≤ r.length ∧ r.getD 0 0 = device_id ∧ r.getD 1 0 = 3 then
        some ((decodeU16 (r.getD 3 0) (r.getD 4 0) : ℚ) / 10)
      else none

/-- Result dictionary of `read_npk`: always exactly the keys
nitrogen/phosphorus/potassium, each possibly `None`. -/
structure NpkResult where
  nitrogen : Option Nat
  phosphorus : Option Nat
  potassium : Option Nat
deriving DecidableEq

/-- Result dictionary of `read_ec_ph`: always exactly the keys ec/ph. -/
structure EcPhResult where
  ec : Option Nat
  ph : Option ℚ
deriving DecidableEq

/-- `TaidacentSoilSensor.read_npk`: accepts when length ≥ 11, byte 0 equals the
device id and byte 1 equals 3; then decodes bytes 3..4, 5..6, 7..8 big-endian.
On any validation failure (or exception) every field is `none`. -/
def read_npk (device_id : Nat) (response : Option (List Nat)) : NpkResult :=
  match response with
  | none => ⟨none, none, none⟩
  | some r =>
      if 11 ≤ r.length ∧ r.getD 0 0 = device_id ∧ r.getD 1 0 = 3 then
        { nitrogen := some (decodeU16 (r.getD 3 0) (r.getD 4 0))
          phosphorus := some (decodeU16 (r.getD 5 0) (r.getD 6 0))
          potassium := some (decodeU16 (r.getD 7 0) (r.getD 8 0)) }
      else ⟨none, none, none⟩

/-- `TaidacentSoilSensor.read_ec_ph`: accepts when length ≥ 13, byte 0 equals
the device id and byte 1 equals 3; decodes EC from bytes 7..8 and pH from bytes
9..10 (divided by 10), skipping the humidity and temperature fields at bytes
3..6.  On any validation failure every field is `none`. -/
def read_ec_ph (device_id : Nat) (response : Option (List Nat)) : EcPhResult :=
  match response with
  | none => ⟨none, none⟩
  | some r =>
      if 13 ≤ r.length ∧ r.getD 0 0 = device_id ∧ r.getD 1 0 = 3 then
        { ec := some (decodeU16 (r.getD 7 0) (r.getD 8 0))
          ph := some ((decodeU16 (r.getD 9 0) (r.getD 10 0) : ℚ) / 10) }
      else ⟨none, none⟩

/-- Model of a pyserial `Serial` object: whether the port is open, and the
bytes that will arrive on it before the read timeout elapses.  `read(size)`
returns at most `size` bytes — on timeout it returns the (possibly empty,
possibly truncated) bytes that did arrive. -/
structure SerialConn where
  isOpen : Bool
  buffer : List Nat
deriving DecidableEq

/-- pyserial `Serial.read(size)`: the first `size` of the bytes that arrive
before the timeout. -/
def serialRead (conn : SerialConn) (size : Nat) : List Nat :=
  conn.buffer.take size

/-- pyserial `Serial.close()`: marks the port closed. -/
def serialClose (conn : SerialConn) : SerialConn :=
  { conn with isOpen := false }

/-- State of an `RS485Communication` object: the optional serial connection
(`self.serial_conn`, `None` until a successful `connect`) and the
`self.is_connected` flag. -/
structure RS485State where
  serialConn : Option SerialConn
  is_connected : Bool
deriving DecidableEq

/-- `RS485Communication.send_command`: fails (returns `False`) when
`is_connected` is false or `serial_conn` is `None`, otherwise writes the
command and returns `True`. -/
def send_command (s : RS485State) : Bool :=
  s.is_connected && s.serialConn.isSome

/-- `RS485Communication.read_response` with an explicit `size`: returns `None`
when not connected, otherwise whatever `serial_conn.read(size)` yields —
including a truncated or empty byte string on timeout. -/
def read_response (s : RS485State) (size : Nat) : Option (List Nat) :=
  if s.is_connected then
    match s.serialConn with
    | some conn => some (serialRead conn size)
    | none => none
  else none

/-- `RS485Communication.send_and_receive`: send the command, sleep briefly,
then read the expected number of bytes; `None` when sending failed. -/
def send_and_receive (s : RS485State) (size : Nat) : Option (List Nat) :=
  if send_command s then read_response s size else none

/-- `RS485Communication.disconnect`: closes the serial connection and clears
`is_connected`, but only when a connection object exists and its port is open;
otherwise it does nothing. -/
def disconnect (s : RS485State) : RS485State :=
  match s.serialConn with
  | some conn =>
      if conn.isOpen then
        { serialConn := some (serialClose conn), is_connected := false }
      else s
  | none => s

/-- State of a `TaidacentSoilSensor` object: the configured device id and the
underlying `RS485Communication` session. -/
structure TaidacentSoilSensor where
  device_id : Nat
  comm : RS485State
deriving DecidableEq

/-- `TaidacentSoilSensor.close`: delegates to `RS485Communication.disconnect`
(and logs, which has no observable state effect). -/
def sensorClose (sensor : TaidacentSoilSensor) : TaidacentSoilSensor :=
  { sensor with comm := disconnect sensor.comm }

/-- Claim C1: for every register in the address table (Nitrogen=0x001E count 1,
Phosphorus=0x001F count 1, Potassium=0x0020 count 1, NPK-group=0x001E count 3,
EC-only=0x0002 count 1, pH-only=0x0003 count 1, EC/pH-group=0x0000 count 4),
`create_command 3 startAddress registerCount` at device id 1 returns exactly the
corresponding pre-built command constant; in particular for Nitrogen exactly
the 8 bytes 01 03 00 1E 00 01 E4 0C. -/
theorem C1_create_command_matches_constants :
    create_command 1 3 0x1E 1 = CMD_READ_N ∧
    create_command 1 3 0x1F 1 = CMD_READ_P ∧
    create_command 1 3 0x20 1 = CMD_READ_K ∧
    create_command 1 3 0x1E 3 = CMD_READ_NPK ∧
    create_command 1 3 0x02 1 = CMD_READ_EC ∧
    create_command 1 3 0x03 1 = CMD_READ_PH ∧
    create_command 1 3 0x00 4 = CMD_READ_EC_PH ∧
    CMD_READ_N = [0x01, 0x03, 0x00, 0x1E, 0x00, 0x01, 0xE4, 0x0C] := by
  decide

/-- Claim C2, counterexample: `calculate_crc16` applied to
[0x01, 0x03, 0x00, 0x1E, 0x00, 0x01] does NOT return [0x0C, 0xE4]: the frame
`CMD_READ_N` ends in E4 0C, so the emitted (low-byte-first) pair is
[0xE4, 0x0C]. -/
theorem C2_counterexample :
    calculate_crc16 [0x01, 0x03, 0x00, 0x1E, 0x00, 0x01] ≠ [0x0C, 0xE4] := by
  decide

/-- Claim C2, amended: `calculate_crc16 [0x01, 0x03, 0x00, 0x1E, 0x00, 0x01]`
returns the two CRC bytes [0xE4, 0x0C] in emission order — low byte 0xE4
first, high byte 0x0C second — which appended to the payload reproduces
`CMD_READ_N`. -/
theorem C2_crc_low_byte_first :
    calculate_crc16 [0x01, 0x03, 0x00, 0x1E, 0x00, 0x01] = [0xE4, 0x0C] ∧
    [0x01, 0x03, 0x00, 0x1E, 0x00, 0x01] ++
      calculate_crc16 [0x01, 0x03, 0x00, 0x1E, 0x00, 0x01] = CMD_READ_N := by
  decide

/-- Claim C3: for every response byte sequence whose first byte differs from
the session device id, or whose second byte differs from 3, or whose length is
below 7 (= 5 + expected byte count 2), each single-register read returns
`none`, never a decoded value. -/
theorem C3_invalid_response_rejected (device_id : Nat) (r : List Nat)
    (h : r.getD 0 0 ≠ device_id ∨ r.getD 1 0 ≠ 3 ∨ r.length < 7) :
    read_nitrogen device_id (some r) = none ∧
    read_phosphorus device_id (some r) = none ∧
    read_potassium device_id (some r) = none ∧
    read_ec device_id (some r) = none ∧
    read_ph device_id (some r) = none := by
  have hg : ¬(7 ≤ r.length ∧ r.getD 0 0 = device_id ∧ r.getD 1 0 = 3) := by
    rcases h with h | h | h
    · exact fun hc => h hc.2.1
    · exact fun hc => h hc.2.2
    · exact fun hc => absurd hc.1 (not_le.mpr h)
  refine ⟨?_, ?_, ?_, ?_, ?_⟩ <;>
    simp only [read_nitrogen, read_phosphorus, read_potassium, read_ec, read_ph,
      if_neg hg]

/-- Witness for C3 at the concrete response [2, 3, 2, 0, 100, 0, 0], whose
first byte 2 differs from device id 1. -/
theorem C3_invalid_response_rejected_witness :
    (([2, 3, 2, 0, 100, 0, 0] : List Nat).getD 0 0 ≠ 1 ∨
     ([2, 3, 2, 0, 100, 0, 0] : List Nat).getD 1 0 ≠ 3 ∨
     ([2, 3, 2, 0, 100, 0, 0] : List Nat).length < 7) ∧
    read_nitrogen 1 (some [2, 3, 2, 0, 100, 0, 0]) = none :=
  ⟨Or.inl (by decide),
   (C3_invalid_response_rejected 1 [2, 3, 2, 0, 100, 0, 0] (Or.inl (by decide))).1⟩

/-- Claim C4, counterexample: the response [1, 3, 99, 0, 100, 0, 0] has
byteCount field 99 ≠ 2 × 1, yet `read_nitrogen` accepts it and decodes 100 —
the code never inspects byte 2. -/
theorem C4_counterexample :
    read_nitrogen 1 (some [1, 3, 99, 0, 100, 0, 0]) = some 100 ∧
    ([1, 3, 99, 0, 100, 0, 0] : List Nat).getD 2 0 ≠ 2 * 1 := by
  decide

/-- Claim C4, amended: acceptance only requires length at least the expected
response length, byte 0 equal to the device id and byte 1 equal to 3; the
byteCount field at index 2 is never checked, so accepted frames need not
satisfy byteCount = 2 × registerCount. -/
theorem C4_acceptance_ignores_bytecount (device_id : Nat) (r : List Nat) :
    ((read_nitrogen device_id (some r)).isSome ↔
      7 ≤ r.length ∧ r.getD 0 0 = device_id ∧ r.getD 1 0 = 3) ∧
    ((read_npk device_id (some r)).nitrogen.isSome ↔
      11 ≤ r.length ∧ r.getD 0 0 = device_id ∧ r.getD 1 0 = 3) := by
  constructor
  · simp only [read_nitrogen]
    by_cases h : 7 ≤ r.length ∧ r.getD 0 0 = device_id ∧ r.getD 1 0 = 3
    · rw [if_pos h]
      exact iff_of_true rfl h
    · rw [if_neg h]
      exact iff_of_false (by simp) h
  · simp only [read_npk]
    by_cases h : 11 ≤ r.length ∧ r.getD 0 0 = device_id ∧ r.getD 1 0 = 3
    · rw [if_pos h]
      exact iff_of_true rfl h
    · rw [if_neg h]
      exact iff_of_false (by simp) h

/-- Claim C5, counterexample: with an open connection on which only the 3
bytes [1, 3, 2] arrive before the timeout, `send_and_receive` with expected
length 7 returns the truncated bytes as a success, not a failure. -/
theorem C5_counterexample :
    send_and_receive ⟨some ⟨true, [1, 3, 2]⟩, true⟩ 7 = some [1, 3, 2] ∧
    send_and_receive ⟨some ⟨true, [1, 3, 2]⟩, true⟩ 7 ≠ none := by
  decide

/-- Claim C5, amended: for every expected response length, when fewer bytes
arrive before the timeout, `send_and_receive` returns the truncated bytes that
did arrive (a short success, not a Timeout failure); every read operation —
the five single reads at their expected length 7, `read_npk` at 11 and
`read_ec_ph` at 13 — then treats the short read as a decode failure and
returns `none` (respectively all-`none`). -/
theorem C5_short_read_is_rejected_by_reads (device_id size : Nat)
    (conn : SerialConn) (h : conn.buffer.length < size) :
    send_and_receive ⟨some conn, true⟩ size = some (conn.buffer.take size) ∧
    (conn.buffer.take size).length < size ∧
    (conn.buffer.length < 7 →
      read_nitrogen device_id (send_and_receive ⟨some conn, true⟩ 7) = none ∧
      read_phosphorus device_id (send_and_receive ⟨some conn, true⟩ 7) = none ∧
      read_potassium device_id (send_and_receive ⟨some conn, true⟩ 7) = none ∧
      read_ec device_id (send_and_receive ⟨some conn, true⟩ 7) = none ∧
      read_ph device_id (send_and_receive ⟨some conn, true⟩ 7) = none) ∧
    (conn.buffer.length < 11 →
      read_npk device_id (send_and_receive ⟨some conn, true⟩ 11) =
        ⟨none, none, none⟩) ∧
    (conn.buffer.length < 13 →
      read_ec_ph device_id (send_and_receive ⟨some conn, true⟩ 13) =
        ⟨none, none⟩) := by
  have hsr : ∀ n : Nat,
      send_and_receive ⟨some conn, true⟩ n = some (conn.buffer.take n) := by
    intro n
    simp [send_and_receive, send_command, read_response, serialRead]
  have hguard : ∀ n : Nat, conn.buffer.length < n →
      ¬(n ≤ (conn.buffer.take n).length ∧
        (conn.buffer.take n).getD 0 0 = device_id ∧
        (conn.buffer.take n).getD 1 0 = 3) := by
    intro n hn hc
    have hle := hc.1
    rw [List.length_take] at hle
    omega
  refine ⟨hsr size, ?_, ?_, ?_, ?_⟩
  · rw [List.length_take]
    omega
  · intro hb
    rw [hsr 7]
    refine ⟨?_, ?_, ?_, ?_, ?_⟩ <;>
      simp only [read_nitrogen, read_phosphorus, read_potassium, read_ec, read_ph,
        if_neg (hguard 7 hb)]
  · intro hb
    rw [hsr 11]
    simp only [read_npk, if_neg (hguard 11 hb)]
  · intro hb
    rw [hsr 13]
    simp only [read_ec_ph, if_neg (hguard 13 hb)]

/-- Witness for the amended C5 at a connection on which only [1, 3, 2]
arrives: the transport hands the 3 truncated bytes through, and the single,
NPK-group and EC/pH-group reads all reject them. -/
theorem C5_short_read_is_rejected_by_reads_witness :
    (SerialConn.mk true [1, 3, 2]).buffer.length < 7 ∧
    send_and_receive ⟨some ⟨true, [1, 3, 2]⟩, true⟩ 7 = some [1, 3, 2] ∧
    read_nitrogen 1 (send_and_receive ⟨some ⟨true, [1, 3, 2]⟩, true⟩ 7) = none ∧
    read_ph 1 (send_and_receive ⟨some ⟨true, [1, 3, 2]⟩, true⟩ 7) = none ∧
    read_npk 1 (send_and_receive ⟨some ⟨true, [1, 3, 2]⟩, true⟩ 11) =
      ⟨none, none, none⟩ ∧
    read_ec_ph 1 (send_and_receive ⟨some ⟨true, [1, 3, 2]⟩, true⟩ 13) =
      ⟨none, none⟩ :=
  ⟨by decide,
   ((C5_short_read_is_rejected_by_reads 1 7 ⟨true, [1, 3, 2]⟩ (by decide)).1).trans
     (by decide),
   ((C5_short_read_is_rejected_by_reads 1 7 ⟨true, [1, 3, 2]⟩ (by decide)).2.2.1
     (by decide)).1,
   ((C5_short_read_is_rejected_by_reads 1 7 ⟨true, [1, 3, 2]⟩ (by decide)).2.2.1
     (by decide)).2.2.2.2,
   (C5_short_read_is_rejected_by_reads 1 7 ⟨true, [1, 3, 2]⟩ (by decide)).2.2.2.1
     (by decide),
   (C5_short_read_is_rejected_by_reads 1 7 ⟨true, [1, 3, 2]⟩ (by decide)).2.2.2.2
     (by decide)⟩

/-- Claim C6: on every accepted grouped response (data field starts at byte 3),
`read_npk` decodes nitrogen, phosphorus and potassium as big-endian 16-bit
values from data offsets 0, 2 and 4, and `read_ec_ph` skips the two leading
fields (humidity at data offset 0, temperature at data offset 2) and decodes
EC from data offset 4 and pH from data offset 6 with division by 10. -/
theorem C6_grouped_field_offsets
    (device_id bc1 n1 n2 p1 p2 k1 k2 c1 c2 : Nat) (rest1 : List Nat)
    (bc2 h1 h2 t1 t2 e1 e2 q1 q2 d1 d2 : Nat) (rest2 : List Nat) :
    read_npk device_id
        (some ([device_id, 3, bc1, n1, n2, p1, p2, k1, k2, c1, c2] ++ rest1)) =
      { nitrogen := some (decodeU16 n1 n2)
        phosphorus := some (decodeU16 p1 p2)
        potassium := some (decodeU16 k1 k2) } ∧
    read_ec_ph device_id
        (some ([device_id, 3, bc2, h1, h2, t1, t2, e1, e2, q1, q2, d1, d2] ++ rest2)) =
      { ec := some (decodeU16 e1 e2)
        ph := some ((decodeU16 q1 q2 : ℚ) / 10) } := by
  constructor
  · simp only [read_npk]
    rw [if_pos ⟨by simp, rfl, rfl⟩]
    rfl
  · simp only [read_ec_ph]
    rw [if_pos ⟨by simp, rfl, rfl⟩]
    rfl

/-- Claim C7: for every accepted pH response the returned value is the raw
big-endian 16-bit register value divided by 10; raw 250 gives pH 25 and raw 68
gives pH 6.8 (= 34/5). -/
theorem C7_ph_scaling (device_id bc v1 v2 c1 c2 : Nat) (rest : List Nat) :
    read_ph device_id (some ([device_id, 3, bc, v1, v2, c1, c2] ++ rest)) =
      some ((decodeU16 v1 v2 : ℚ) / 10) ∧
    read_ph 1 (some [1, 3, 2, 0, 250, 0, 0]) = some 25 ∧
    read_ph 1 (some [1, 3, 2, 0, 68, 0, 0]) = some (34 / 5 : ℚ) := by
  refine ⟨?_, ?_, ?_⟩
  · simp only [read_ph]
    rw [if_pos ⟨by simp, rfl, rfl⟩]
    rfl
  · norm_num [read_ph, decodeU16]
  · norm_num [read_ph, decodeU16]

/-- Claim C8: a response of sufficient length whose byte 0 matches the device
id and whose byte 1 is 3 is decoded even when its trailing two bytes are NOT
the Modbus CRC-16 of the preceding bytes — response CRC is never verified. -/
theorem C8_crc_not_verified (device_id bc v1 v2 c1 c2 : Nat)
    (hcrc : [c1, c2] ≠ calculate_crc16 [device_id, 3, bc, v1, v2]) :
    read_nitrogen device_id (some [device_id, 3, bc, v1, v2, c1, c2]) =
      some (decodeU16 v1 v2) ∧
    read_ec device_id (some [device_id, 3, bc, v1, v2, c1, c2]) =
      some (decodeU16 v1 v2) := by
  constructor
  · simp only [read_nitrogen]
    rw [if_pos ⟨by simp, rfl, rfl⟩]
    rfl
  · simp only [read_ec]
    rw [if_pos ⟨by simp, rfl, rfl⟩]
    rfl

/-- Witness for C8: the frame [1, 3, 2, 0, 100, 0, 0] carries CRC bytes
[0, 0], which are wrong, yet `read_nitrogen` decodes 100. -/
theorem C8_crc_not_verified_witness :
    ([0, 0] : List Nat) ≠ calculate_crc16 [1, 3, 2, 0, 100] ∧
    read_nitrogen 1 (some [1, 3, 2, 0, 100, 0, 0]) = some 100 :=
  ⟨by decide,
   ((C8_crc_not_verified 1 2 0 100 0 0 (by decide)).1).trans (by decide)⟩

/-- Claim C9: `disconnect` (and the sensor-level `close` that delegates to it)
is idempotent, raises nothing (it is a total function), is a no-op on a
never-opened session, and leaves `is_connected` false both on a session that
was closed (or never opened) and on one that was open. -/
theorem C9_close_idempotent (s t : RS485State) (conn : SerialConn)
    (ht : t.is_connected = false) (hconn : conn.isOpen = true) :
    disconnect (disconnect s) = disconnect s ∧
    (disconnect t).is_connected = false ∧
    (disconnect { serialConn := some conn, is_connected := true }).is_connected = false ∧
    sensorClose (sensorClose ⟨1, s⟩) = sensorClose ⟨1, s⟩ := by
  have hidem : ∀ u : RS485State, disconnect (disconnect u) = disconnect u := by
    intro u
    rcases u with ⟨sc, ic⟩
    rcases sc with _ | c
    · rfl
    · by_cases hc : c.isOpen
      · simp [disconnect, serialClose, hc]
      · simp [disconnect, hc]
  refine ⟨hidem s, ?_, ?_, ?_⟩
  · rcases t with ⟨sc, ic⟩
    rcases sc with _ | c
    · simpa [disconnect] using ht
    · by_cases hc : c.isOpen
      · simp [disconnect, hc]
      · simpa [disconnect, hc] using ht
  · simp [disconnect, hconn]
  · simp [sensorClose, hidem s]

/-- Witness for C9 on a freshly opened session, a never-opened session and an
open connection. -/
theorem C9_close_idempotent_witness :
    (RS485State.mk none false).is_connected = false ∧
    (SerialConn.mk true []).isOpen = true ∧
    (disconnect (disconnect ⟨some ⟨true, []⟩, true⟩) = disconnect ⟨some ⟨true, []⟩, true⟩ ∧
     (disconnect ⟨none, false⟩).is_connected = false ∧
     (disconnect { serialConn := some ⟨true, []⟩, is_connected := true }).is_connected = false ∧
     sensorClose (sensorClose ⟨1, ⟨some ⟨true, []⟩, true⟩⟩) =
       sensorClose ⟨1, ⟨some ⟨true, []⟩, true⟩⟩) :=
  ⟨rfl, rfl,
   C9_close_idempotent ⟨some ⟨true, []⟩, true⟩ ⟨none, false⟩ ⟨true, []⟩ rfl rfl⟩

/-- Claim C10: `read_npk` always returns a record with exactly the fields
nitrogen/phosphorus/potassium and `read_ec_ph` one with exactly ec/ph (fixed
by their result types, so no key can be missing and nothing is raised); for
every input either all fields decode or every field is `none` — never a
partially populated result. -/
theorem C10_all_or_nothing (device_id : Nat) (response : Option (List Nat)) :
    (((read_npk device_id response).nitrogen.isSome ∧
      (read_npk device_id response).phosphorus.isSome ∧
      (read_npk device_id response).potassium.isSome) ∨
     read_npk device_id response = ⟨none, none, none⟩) ∧
    (((read_ec_ph device_id response).ec.isSome ∧
      (read_ec_ph device_id response).ph.isSome) ∨
     read_ec_ph device_id response = ⟨none, none⟩) := by
  constructor
  · rcases response with _ | r
    · exact Or.inr rfl
    · simp only [read_npk]
      by_cases h : 11 ≤ r.length ∧ r.getD 0 0 = device_id ∧ r.getD 1 0 = 3
      · rw [if_pos h]
        exact Or.inl ⟨rfl, rfl, rfl⟩
      · rw [if_neg h]
        exact Or.inr rfl
  · rcases response with _ | r
    · exact Or.inr rfl
    · simp only [read_ec_ph]
      by_cases h : 13 ≤ r.length ∧ r.getD 0 0 = device_id ∧ r.getD 1 0 = 3
      · rw [if_pos h]
        exact Or.inl ⟨rfl, rfl⟩
      · rw [if_neg h]
        exact Or.inr rfl

end ECSensor
